import Mathlib

/- Shallow embedding of src/main.py: a batch pipeline that converts a tree of
   YAML detection-rule files into CSV rows, enriched by matching each rule's
   tags against a tactics reference table and a techniques reference table. -/

/-- YAML values as produced by yaml.safe_load: null, strings, integers,
sequences and mappings (mappings modelled as key/value lists). -/
inductive Yaml where
  | null : Yaml
  | str (s : String) : Yaml
  | int (n : Int) : Yaml
  | list (xs : List Yaml) : Yaml
  | map (kvs : List (String × Yaml)) : Yaml

/-- Python sep.join(xs). -/
def joinSep (sep : String) : List String → String
  | [] => ""
  | x :: xs => xs.foldl (fun a b => a ++ sep ++ b) x

/-- Python str.lower(), for the ASCII range used by the reference keys. -/
def pyLower (s : String) : String := String.mk (s.data.map Char.toLower)

/-- Python str.strip(): drop leading and trailing whitespace. -/
def pyStrip (s : String) : String :=
  String.mk (((s.data.dropWhile Char.isWhitespace).reverse.dropWhile Char.isWhitespace).reverse)

def splitCommaAux : List Char → List Char → List String
  | [], acc => [String.mk acc.reverse]
  | c :: rest, acc =>
    if c = ',' then String.mk acc.reverse :: splitCommaAux rest []
    else splitCommaAux rest (c :: acc)

/-- Python s.split(','). -/
def splitComma (s : String) : List String := splitCommaAux s.data []

mutual

/-- Python repr of a YAML value: "None" for null, quoted strings, bracketed
sequences and braced mappings with repr-ed parts. -/
def reprY : Yaml → String
  | .null => "None"
  | .str s => "\x27" ++ s ++ "\x27"
  | .int n => toString n
  | .list xs => "[" ++ joinSep ", " (reprList xs) ++ "]"
  | .map kvs => "\x7b" ++ joinSep ", " (reprKVs kvs) ++ "\x7d"

def reprList : List Yaml → List String
  | [] => []
  | y :: ys => reprY y :: reprList ys

def reprKVs : List (String × Yaml) → List String
  | [] => []
  | p :: rest => ("\x27" ++ p.1 ++ "\x27: " ++ reprY p.2) :: reprKVs rest

end

/-- Python str(): identity on strings, decimal for integers, "None" for null;
containers render through repr, as Python's str does. -/
def pyStr : Yaml → String
  | .null => "None"
  | .str s => s
  | .int n => toString n
  | .list xs => reprY (.list xs)
  | .map kvs => reprY (.map kvs)

/-- re.sub(r'[-_]', ' ', s): replace every '-' or '_' character with a space
(line 13 / 16 of main.py). -/
def spaceSeps (s : String) : String :=
  String.mk (s.data.map fun c => if c = '-' ∨ c = '_' then ' ' else c)

/-- s.replace("attack.", ""): one left-to-right, non-overlapping pass removing
each occurrence of "attack.". -/
def removeAttackL : List Char → List Char
  | 'a' :: 't' :: 't' :: 'a' :: 'c' :: 'k' :: '.' :: rest => removeAttackL rest
  | c :: rest => c :: removeAttackL rest
  | [] => []

def removeAttack (s : String) : String := String.mk (removeAttackL s.data)

/-- The per-tag normalization of clean_tags: re.sub(r'[-_]', ' ', tag)
followed by .replace("attack.", ""). -/
def cleanOne (s : String) : String := removeAttack (spaceSeps s)

/-- clean_tags (main.py lines 10-17): on a list, str()-coerce each element,
normalize it, and join with ", "; on a string, normalize it; otherwise "". -/
def clean_tags : Yaml → String
  | .list xs => joinSep ", " (xs.map fun t => cleanOne (pyStr t))
  | .str s => cleanOne s
  | _ => ""

/-- format_tags (main.py lines 19-24): list joins str()-coerced elements with
", "; dict joins "k:v" pairs with ", "; None becomes ""; scalars str()-coerce. -/
def format_tags : Yaml → String
  | .list xs => joinSep ", " (xs.map pyStr)
  | .map kvs => joinSep ", " (kvs.map fun p => p.1 ++ ":" ++ pyStr p.2)
  | .null => ""
  | y => pyStr y

/-- One reference-table row after load_csv (pd.read_csv(dtype=str).fillna('')):
every cell a string, missing cells "". The tactics table leaves the tactics
cell unused. -/
structure RefRow where
  id : String
  name : String
  tactics : String

/-- A Python dict as an insertion list; lookup scans from the end so that the
last write wins, matching dict assignment. -/
def dictGet (ps : List (String × String)) (k : String) : Option String :=
  ps.foldl (fun acc p => if p.1 = k then some p.2 else acc) none

/-- The two maps built by build_lookup. -/
structure Lookup where
  id : List (String × String)
  name : List (String × String)

/-- build_lookup (main.py lines 29-35): key each row's ID and name by their
stripped, lowercased form; the stored value is the canonical cell. -/
def build_lookup (reference_df : List RefRow) : Lookup :=
  { id := reference_df.map fun r => (pyLower (pyStrip r.id), r.id),
    name := reference_df.map fun r => (pyLower (pyStrip r.name), r.name) }

/-- First-occurrence deduplication; models the Python set built in match_tags
with a deterministic iteration order (CPython leaves set order unspecified). -/
def dedupAux (seen : List String) : List String → List String
  | [] => []
  | x :: xs => if x ∈ seen then dedupAux seen xs else x :: dedupAux (x :: seen) xs

def dedupFirst (xs : List String) : List String := dedupAux [] xs

/-- The token set of match_tags: split on ',', keep tokens whose strip is
non-empty, strip and lowercase them, deduplicate. -/
def tagTokens (tags : String) : List String :=
  dedupFirst (((splitComma tags).map pyStrip).filter (fun t => t ≠ "") |>.map pyLower)

/-- match_tags (main.py lines 37-41): collect the canonical ID for each token
found in the id map and the canonical name for each token found in the name
map, each joined with ", ". -/
def match_tags (tags : String) (lookup : Lookup) : String × String :=
  let ts := tagTokens tags
  (joinSep ", " (ts.filterMap (dictGet lookup.id)),
   joinSep ", " (ts.filterMap (dictGet lookup.name)))

/-- The for-loop of fill_tactics_from_techniques (lines 45-53): for each
comma-separated technique id, if its stripped lowercase form is a key of the
techniques id map, scan techniques_df for the first row whose ID matches
case-insensitively and append that row's stripped tactic names. After
fillna('') the tactics cell is a string, so pd.notna is always true. -/
def backfillNames (techIds : String) (techniques_lookup : Lookup)
    (techniques_df : List RefRow) : List String :=
  (splitComma techIds).foldl (fun acc t =>
    let tid := pyStrip t
    if tid ≠ "" ∧ (dictGet techniques_lookup.id (pyLower tid)).isSome then
      match techniques_df.find? (fun r => pyLower r.id == pyLower tid) with
      | some r => acc ++ (splitComma r.tactics).map pyStrip
      | none => acc
    else acc) []

/-- One output record. The CSV columns "Type", "Datasource", "File path" and
"file name" are the fields type, datasource, filePath, fileName. Fields copied
raw from the document (date, modified, title, description, level) keep their
YAML value, as the Python dict does; every other column is a string. -/
structure Row where
  date : Yaml
  modified : Yaml
  type : String
  datasource : String
  tags : String
  original_tags : String
  tactics_id : String
  tactics_name : String
  techniques_id : String
  techniques_name : String
  logsource : String
  title : Yaml
  description : Yaml
  detection : String
  falsepositives : String
  fields : String
  level : Yaml
  references : String
  filePath : String
  fileName : String

/-- row = \x7bkey: "" for key in columns\x7d (main.py line 94). -/
def emptyRow : Row :=
  { date := .str "", modified := .str "", type := "", datasource := "", tags := "",
    original_tags := "", tactics_id := "", tactics_name := "", techniques_id := "",
    techniques_name := "", logsource := "", title := .str "", description := .str "",
    detection := "", falsepositives := "", fields := "", level := .str "",
    references := "", filePath := "", fileName := "" }

/-- fill_tactics_from_techniques (main.py lines 43-57): when tactics_id is
falsy and techniques_id truthy, run the accumulated tactic names through
match_tags against the tactics lookup and store both results. -/
def fill_tactics_from_techniques (row : Row) (techniques_lookup tactics_lookup : Lookup)
    (techniques_df : List RefRow) : Row :=
  if row.tactics_id = "" ∧ row.techniques_id ≠ "" then
    let m := match_tags (joinSep ", " (backfillNames row.techniques_id techniques_lookup techniques_df))
      tactics_lookup
    { row with tactics_id := m.1, tactics_name := m.2 }
  else row

/-- split_file_path (main.py lines 59-63) on the parts of relative_path.parent:
Type is the first segment or "", Datasource rejoins the remaining segments when
there are at least two. -/
def split_file_path (parts : List String) : String × String :=
  (parts.headD "", if parts.length > 1 then joinSep "/" parts.tail else "")

/-- str(relative_path.parent): "." for a file directly under the root. -/
def parentStr (parts : List String) : String :=
  if parts = [] then "." else joinSep "/" parts

/-- A discovered file: the directory segments of its path relative to the
root, its file name, and the result of open + yaml.safe_load — none models a
parse or I/O error raised there. -/
structure FileEntry where
  dirParts : List String
  name : String
  content : Option Yaml

/-- Python truthiness of a parsed document, for yaml.safe_load(f) or \x7b\x7d. -/
def isFalsy : Yaml → Bool
  | .null => true
  | .str s => s == ""
  | .int n => n == 0
  | .list xs => xs.isEmpty
  | .map kvs => kvs.isEmpty

def asPyStr : Yaml → Option String
  | .str s => some s
  | _ => none

/-- The str-instance check of ', '.join: some list of the raw strings when
every element is a str, none (TypeError) otherwise. -/
def allStrs : List Yaml → Option (List String)
  | [] => some []
  | y :: ys =>
    match asPyStr y, allStrs ys with
    | some s, some rest => some (s :: rest)
    | _, _ => none

/-- ', '.join(xs) on raw YAML elements: Python raises TypeError unless every
element is a str, so the result is an Option. -/
def pyJoinStrs (xs : List Yaml) : Option String :=
  (allStrs xs).map (joinSep ", ")

/-- The special-case formatting of the fields and references columns (main.py
lines 111-117 / 119-125): a list is joined raw with ", " (TypeError on
non-string elements, modelled as none); anything else goes through
format_tags. -/
def fieldsRefsFormat : Yaml → Option String
  | .list xs => pyJoinStrs xs
  | y => some (format_tags y)

/-- dict.get on the parsed mapping; PyYAML keeps the last binding of a
duplicated key, modelled by scanning from the end. -/
def yget (kvs : List (String × Yaml)) (k : String) : Option Yaml :=
  kvs.foldl (fun acc p => if p.1 = k then some p.2 else acc) none

/-- content.get(k, ""): the raw value, or the string "" when absent. -/
def ygetD (kvs : List (String × Yaml)) (k : String) : Yaml :=
  (yget kvs k).getD (.str "")

/-- The direct tag-matching step (main.py lines 126-128): when the normalized
tags string is truthy, match it against the tactics lookup and the techniques
lookup and store the four results. -/
def applyTagMatch (tactics_lookup techniques_lookup : Lookup) (r : Row) : Row :=
  if r.tags ≠ "" then
    let tm := match_tags r.tags tactics_lookup
    let qm := match_tags r.tags techniques_lookup
    { r with tactics_id := tm.1, tactics_name := tm.2,
             techniques_id := qm.1, techniques_name := qm.2 }
  else r

/-- The body of the with-block (main.py lines 101-129) on a parsed mapping,
threading the partially filled row; the Bool is true when no exception was
raised. The two raw ', '.join calls are the only fallible steps, and on
failure the row keeps exactly the fields assigned before the raise. -/
def extractRow (techniques_lookup tactics_lookup : Lookup) (techniques_df : List RefRow)
    (kvs : List (String × Yaml)) (row0 : Row) : Row × Bool :=
  let r1 : Row := { row0 with
    date := ygetD kvs "date",
    modified := ygetD kvs "modified",
    original_tags := format_tags (ygetD kvs "tags"),
    tags := clean_tags (ygetD kvs "tags"),
    logsource := format_tags (ygetD kvs "logsource"),
    title := ygetD kvs "title",
    description := ygetD kvs "description",
    detection := format_tags (ygetD kvs "detection"),
    falsepositives := format_tags (ygetD kvs "falsepositives") }
  match fieldsRefsFormat (ygetD kvs "fields") with
  | none => (r1, false)
  | some fieldsStr =>
    let r2 : Row := { r1 with fields := fieldsStr, level := ygetD kvs "level" }
    match fieldsRefsFormat (ygetD kvs "references") with
    | none => (r2, false)
    | some refsStr =>
      let r3 : Row := { r2 with references := refsStr }
      (fill_tactics_from_techniques (applyTagMatch tactics_lookup techniques_lookup r3)
        techniques_lookup tactics_lookup techniques_df, true)

/-- One iteration of the per-file loop (main.py lines 92-134): the row starts
with path-derived fields; a parse/IO error (content = none) or a document that
is truthy but not a mapping (content.get raises AttributeError) leaves the
content fields blank; otherwise the document — replaced by the empty mapping
when falsy — is extracted. The Bool reports success (processed_files). -/
def processFile (techniques_lookup tactics_lookup : Lookup) (techniques_df : List RefRow)
    (e : FileEntry) : Row × Bool :=
  let td := split_file_path e.dirParts
  let row0 : Row := { emptyRow with
    filePath := parentStr e.dirParts,
    fileName := e.name,
    type := td.1,
    datasource := td.2 }
  match e.content with
  | none => (row0, false)
  | some c =>
    match (if isFalsy c then Yaml.map [] else c) with
    | .map kvs => extractRow techniques_lookup tactics_lookup techniques_df kvs row0
    | _ => (row0, false)

/-- '*.yml' at the file-name level of rglob: any (possibly empty) run of
characters followed by the literal suffix ".yml", case-sensitively (POSIX
pathlib matching). -/
def globYml (name : String) : Bool := ".yml".data.isSuffixOf name.data

/-- '*.yaml' at the file-name level of rglob. -/
def globYaml (name : String) : Bool := ".yaml".data.isSuffixOf name.data

/-- main.py line 91: list(root.rglob('*.yml')) + list(root.rglob('*.yaml')),
over the filesystem enumeration fs. -/
def discover (fs : List FileEntry) : List FileEntry :=
  fs.filter (fun e => globYml e.name) ++ fs.filter (fun e => globYaml e.name)

structure RunResult where
  rows : List Row
  processed : Nat
  errors : Nat

/-- One iteration of the loop body of main (lines 92-134): process the file,
bump processed_files or error_files, and append exactly one row. -/
def pipelineStep (techniques_lookup tactics_lookup : Lookup) (techniques_df : List RefRow)
    (acc : RunResult) (e : FileEntry) : RunResult :=
  let pr := processFile techniques_lookup tactics_lookup techniques_df e
  { rows := acc.rows ++ [pr.1],
    processed := if pr.2 then acc.processed + 1 else acc.processed,
    errors := if pr.2 then acc.errors else acc.errors + 1 }

/-- The per-file loop of main (lines 92-134): every file appends exactly one
row; the counters mirror processed_files and error_files. -/
def runPipeline (tactics_df techniques_df : List RefRow) (files : List FileEntry) : RunResult :=
  let tactics_lookup := build_lookup tactics_df
  let techniques_lookup := build_lookup techniques_df
  files.foldl (pipelineStep techniques_lookup tactics_lookup techniques_df) ⟨[], 0, 0⟩

/-- The whole run of main on a filesystem enumeration: discovery then the
per-file loop. -/
def mainRun (tactics_df techniques_df : List RefRow) (fs : List FileEntry) : RunResult :=
  runPipeline tactics_df techniques_df (discover fs)

/-- How csv.writer renders one raw cell: None becomes the empty string,
anything else is str()-coerced (strings pass through; quoting/escaping of the
serialized text is not modelled). -/
def renderCell : Yaml → String
  | .null => ""
  | y => pyStr y

/-- The fixed column list (main.py lines 80-85). -/
def csvHeader : List String :=
  ["date", "modified", "Type", "Datasource", "tags", "original_tags",
   "tactics_id", "tactics_name", "techniques_id", "techniques_name",
   "logsource", "title", "description", "detection", "falsepositives",
   "fields", "level", "references", "File path", "file name"]

/-- One CSV data line, cells in column order, as DictWriter emits it. -/
def renderRow (r : Row) : List String :=
  [renderCell r.date, renderCell r.modified, r.type, r.datasource, r.tags,
   r.original_tags, r.tactics_id, r.tactics_name, r.techniques_id,
   r.techniques_name, r.logsource, renderCell r.title, renderCell r.description,
   r.detection, r.falsepositives, r.fields, renderCell r.level, r.references,
   r.filePath, r.fileName]

/-- The written CSV: header line then one line per row (main.py lines 135-138). -/
def csvOutput (tactics_df techniques_df : List RefRow) (fs : List FileEntry) : List (List String) :=
  csvHeader :: (mainRun tactics_df techniques_df fs).rows.map renderRow

/-- Spec-side (for comparison only): the extension test the claim describes —
the lowercased name ends with ".yml" or ".yaml". -/
def extCaseInsensitive (name : String) : Bool :=
  globYml (pyLower name) || globYaml (pyLower name)

/-- Spec-side (for comparison only): the cell the spec prescribes for a
directly copied key — the document's value when present and non-null, the
empty string otherwise. -/
def copiedField (kvs : List (String × Yaml)) (k : String) : String :=
  match yget kvs k with
  | none => ""
  | some .null => ""
  | some y => pyStr y

/- Concrete inputs used by the closed theorems below. -/

/-- The tactics reference row of the spec's worked example. -/
def tacticsDf1 : List RefRow := [{ id := "TA0005", name := "Defense Evasion", tactics := "" }]

/-- The techniques reference row of the spec's worked example. -/
def techniquesDf1 : List RefRow :=
  [{ id := "T1055", name := "Process Injection", tactics := "Defense Evasion" }]

/-- A rule file whose tags normalize to "t1055". -/
def entry1 : FileEntry :=
  { dirParts := [], name := "r.yml",
    content := some (.map [("tags", .list [.str "attack.t1055"])]) }

/-- A .yml file enumerated before an alphabetically smaller .yaml file. -/
def entryB : FileEntry := { dirParts := [], name := "b.yml", content := none }

def entryA : FileEntry := { dirParts := [], name := "a.yaml", content := none }

/-- A file with an upper-case extension. -/
def entryUpper : FileEntry := { dirParts := [], name := "a.YML", content := none }

/-- A rule file whose open/parse fails. -/
def entryBad : FileEntry :=
  { dirParts := ["windows", "process"], name := "bad.yml", content := none }

/-- A document that parses fine but whose fields list holds a non-string. -/
def kvsBad : List (String × Yaml) := [("fields", .list [.int 1]), ("level", .str "high")]

/-- A benign document exercising the directly copied keys. -/
def kvsGood : List (String × Yaml) :=
  [("date", .str "2024/01/01"), ("modified", .null), ("title", .str "Test rule"),
   ("description", .str "d"), ("level", .str "high")]

def rowWithTactic : Row := { emptyRow with tactics_id := "TA0005", techniques_id := "T1055" }

def rowNoTech : Row := { emptyRow with techniques_id := "" }

/- Helper lemmas shared by several claims. -/

theorem foldl_pipelineStep_rows (techniques_lookup tactics_lookup : Lookup)
    (techniques_df : List RefRow) (files : List FileEntry) :
    ∀ acc : RunResult,
      (files.foldl (pipelineStep techniques_lookup tactics_lookup techniques_df) acc).rows =
        acc.rows ++
          files.map (fun e => (processFile techniques_lookup tactics_lookup techniques_df e).1) := by
  induction files with
  | nil => intro acc; simp
  | cons e rest ih => intro acc; simp [pipelineStep, ih]

theorem runPipeline_rows (tactics_df techniques_df : List RefRow) (files : List FileEntry) :
    (runPipeline tactics_df techniques_df files).rows =
      files.map (fun e =>
        (processFile (build_lookup techniques_df) (build_lookup tactics_df) techniques_df e).1) := by
  simpa [runPipeline] using
    foldl_pipelineStep_rows (build_lookup techniques_df) (build_lookup tactics_df)
      techniques_df files ⟨[], 0, 0⟩

/-- C3: the CSV holds the header plus exactly one data row per discovered
.yml/.yaml file, whatever the reference tables, the file contents, or any
per-file failures. -/
theorem claim_C3_row_count (tactics_df techniques_df : List RefRow) (fs : List FileEntry) :
    (csvOutput tactics_df techniques_df fs).length = (discover fs).length + 1 := by
  simp [csvOutput, mainRun, runPipeline_rows]

/-- C6 (amended): rows are emitted in discovery order, which is not a sorted
order: every '*.yml' match (in filesystem enumeration order) comes before
every '*.yaml' match, one row per file. -/
theorem claim_C6_enumeration_order (tactics_df techniques_df : List RefRow)
    (fs : List FileEntry) :
    (mainRun tactics_df techniques_df fs).rows =
      (fs.filter (fun e => globYml e.name) ++ fs.filter (fun e => globYaml e.name)).map
        (fun e =>
          (processFile (build_lookup techniques_df) (build_lookup tactics_df) techniques_df e).1) := by
  rw [mainRun, runPipeline_rows, discover]

/-- C6 (counterexample): with enumeration [b.yml, a.yaml] the rows come out as
[b.yml, a.yaml] even though "a.yaml" < "b.yml", so the file list is not sorted
lexicographically before processing. -/
theorem claim_C6_counterexample :
    (mainRun [] [] [entryB, entryA]).rows.map Row.fileName = ["b.yml", "a.yaml"] ∧
      ("a.yaml" : String) < "b.yml" := by
  constructor
  · decide
  · rw [String.lt_iff_toList_lt]
    decide

/-- C5 (amended): a file is discovered exactly when it is in the enumeration
and its name ends with the literal suffix ".yml" or ".yaml" (case-sensitive,
as POSIX pathlib glob matching is). -/
theorem claim_C5_discovery (fs : List FileEntry) (e : FileEntry) :
    e ∈ discover fs ↔ e ∈ fs ∧ (globYml e.name = true ∨ globYaml e.name = true) := by
  simp only [discover, List.mem_append, List.mem_filter]
  tauto

/-- C5 (counterexample): "a.YML" has extension .yml under case-insensitive
comparison, yet the walker discovers nothing. -/
theorem claim_C5_counterexample :
    extCaseInsensitive "a.YML" = true ∧ (discover [entryUpper]).map FileEntry.name = [] := by
  constructor
  · decide
  · rfl

/-- C1: on the spec's worked example (techniques row T1055/"Process
Injection"/tactics "Defense Evasion", tactics row TA0005/"Defense Evasion",
rule tags normalizing to "t1055"), direct matching yields techniques_id
"T1055", but the backfill step leaves tactics_id empty — it only fills
tactics_name with "Defense Evasion", because match_tags looks the tactic
names up in the id map, which is keyed by lowercased IDs, never by names. -/
theorem claim_C1_backfill_leaves_id_empty :
    (mainRun tacticsDf1 techniquesDf1 [entry1]).rows.map Row.tags = ["t1055"] ∧
      (mainRun tacticsDf1 techniquesDf1 [entry1]).rows.map Row.techniques_id = ["T1055"] ∧
      (mainRun tacticsDf1 techniquesDf1 [entry1]).rows.map Row.tactics_name = ["Defense Evasion"] ∧
      (mainRun tacticsDf1 techniquesDf1 [entry1]).rows.map Row.tactics_id = [""] := by
  refine ⟨?_, ?_, ?_, ?_⟩ <;> decide

/-- C9 (counterexample): on the sequence [1] the special-case path of the
fields/references columns raises a TypeError (', '.join of a non-string),
while the general transform returns "1" — the two paths are not equivalent on
all sequences. -/
theorem claim_C9_counterexample :
    fieldsRefsFormat (.list [.int 1]) ≠ some (format_tags (.list [.int 1])) := by
  decide

/-- C7 (counterexample): the document \x7bfields: [1], level: "high"\x7d parses
successfully, but the raw join of the fields list raises before level is
copied, so the emitted level cell is "" rather than "high". -/
theorem claim_C7_counterexample :
    yget kvsBad "level" = some (.str "high") ∧
      renderCell (extractRow (build_lookup []) (build_lookup []) [] kvsBad emptyRow).1.level = "" ∧
      (extractRow (build_lookup []) (build_lookup []) [] kvsBad emptyRow).2 = false := by
  refine ⟨rfl, rfl, rfl⟩

theorem fill_keeps_date (row : Row) (ql tl : Lookup) (df : List RefRow) :
    (fill_tactics_from_techniques row ql tl df).date = row.date := by
  unfold fill_tactics_from_techniques; split <;> rfl

theorem fill_keeps_modified (row : Row) (ql tl : Lookup) (df : List RefRow) :
    (fill_tactics_from_techniques row ql tl df).modified = row.modified := by
  unfold fill_tactics_from_techniques; split <;> rfl

theorem fill_keeps_title (row : Row) (ql tl : Lookup) (df : List RefRow) :
    (fill_tactics_from_techniques row ql tl df).title = row.title := by
  unfold fill_tactics_from_techniques; split <;> rfl

theorem fill_keeps_description (row : Row) (ql tl : Lookup) (df : List RefRow) :
    (fill_tactics_from_techniques row ql tl df).description = row.description := by
  unfold fill_tactics_from_techniques; split <;> rfl

theorem fill_keeps_level (row : Row) (ql tl : Lookup) (df : List RefRow) :
    (fill_tactics_from_techniques row ql tl df).level = row.level := by
  unfold fill_tactics_from_techniques; split <;> rfl

theorem applyTagMatch_date (tl ql : Lookup) (r : Row) :
    (applyTagMatch tl ql r).date = r.date := by
  unfold applyTagMatch; split <;> rfl

theorem applyTagMatch_modified (tl ql : Lookup) (r : Row) :
    (applyTagMatch tl ql r).modified = r.modified := by
  unfold applyTagMatch; split <;> rfl

theorem applyTagMatch_title (tl ql : Lookup) (r : Row) :
    (applyTagMatch tl ql r).title = r.title := by
  unfold applyTagMatch; split <;> rfl

theorem applyTagMatch_description (tl ql : Lookup) (r : Row) :
    (applyTagMatch tl ql r).description = r.description := by
  unfold applyTagMatch; split <;> rfl

theorem applyTagMatch_level (tl ql : Lookup) (r : Row) :
    (applyTagMatch tl ql r).level = r.level := by
  unfold applyTagMatch; split <;> rfl

/-- C10: the backfill step writes at most tactics_id and tactics_name; the
other eighteen fields of the row come through unchanged. -/
theorem claim_C10_fill_frame (row : Row) (techniques_lookup tactics_lookup : Lookup)
    (techniques_df : List RefRow) :
    (fill_tactics_from_techniques row techniques_lookup tactics_lookup techniques_df).date = row.date ∧
    (fill_tactics_from_techniques row techniques_lookup tactics_lookup techniques_df).modified = row.modified ∧
    (fill_tactics_from_techniques row techniques_lookup tactics_lookup techniques_df).type = row.type ∧
    (fill_tactics_from_techniques row techniques_lookup tactics_lookup techniques_df).datasource = row.datasource ∧
    (fill_tactics_from_techniques row techniques_lookup tactics_lookup techniques_df).tags = row.tags ∧
    (fill_tactics_from_techniques row techniques_lookup tactics_lookup techniques_df).original_tags = row.original_tags ∧
    (fill_tactics_from_techniques row techniques_lookup tactics_lookup techniques_df).techniques_id = row.techniques_id ∧
    (fill_tactics_from_techniques row techniques_lookup tactics_lookup techniques_df).techniques_name = row.techniques_name ∧
    (fill_tactics_from_techniques row techniques_lookup tactics_lookup techniques_df).logsource = row.logsource ∧
    (fill_tactics_from_techniques row techniques_lookup tactics_lookup techniques_df).title = row.title ∧
    (fill_tactics_from_techniques row techniques_lookup tactics_lookup techniques_df).description = row.description ∧
    (fill_tactics_from_techniques row techniques_lookup tactics_lookup techniques_df).detection = row.detection ∧
    (fill_tactics_from_techniques row techniques_lookup tactics_lookup techniques_df).falsepositives = row.falsepositives ∧
    (fill_tactics_from_techniques row techniques_lookup tactics_lookup techniques_df).fields = row.fields ∧
    (fill_tactics_from_techniques row techniques_lookup tactics_lookup techniques_df).level = row.level ∧
    (fill_tactics_from_techniques row techniques_lookup tactics_lookup techniques_df).references = row.references ∧
    (fill_tactics_from_techniques row techniques_lookup tactics_lookup techniques_df).filePath = row.filePath ∧
    (fill_tactics_from_techniques row techniques_lookup tactics_lookup techniques_df).fileName = row.fileName := by
  unfold fill_tactics_from_techniques
  split
  · exact ⟨rfl, rfl, rfl, rfl, rfl, rfl, rfl, rfl, rfl, rfl, rfl, rfl, rfl, rfl, rfl, rfl, rfl, rfl⟩
  · exact ⟨rfl, rfl, rfl, rfl, rfl, rfl, rfl, rfl, rfl, rfl, rfl, rfl, rfl, rfl, rfl, rfl, rfl, rfl⟩

theorem fill_noop (row : Row) (ql tl : Lookup) (df : List RefRow)
    (h : ¬(row.tactics_id = "" ∧ row.techniques_id ≠ "")) :
    fill_tactics_from_techniques row ql tl df = row := by
  unfold fill_tactics_from_techniques
  rw [if_neg h]

theorem fill_pos (row : Row) (ql tl : Lookup) (df : List RefRow)
    (h : row.tactics_id = "" ∧ row.techniques_id ≠ "") :
    fill_tactics_from_techniques row ql tl df =
      { row with
        tactics_id := (match_tags (joinSep ", " (backfillNames row.techniques_id ql df)) tl).1,
        tactics_name := (match_tags (joinSep ", " (backfillNames row.techniques_id ql df)) tl).2 } := by
  unfold fill_tactics_from_techniques
  rw [if_pos h]

/-- C8: the backfill step is idempotent — applying it twice with the same
lookup tables and techniques table gives the row of a single application —
and it is a no-op whenever tactics_id is already non-empty or techniques_id
is empty. -/
theorem claim_C8_fill_idempotent (row : Row) (techniques_lookup tactics_lookup : Lookup)
    (techniques_df : List RefRow) :
    fill_tactics_from_techniques
        (fill_tactics_from_techniques row techniques_lookup tactics_lookup techniques_df)
        techniques_lookup tactics_lookup techniques_df =
      fill_tactics_from_techniques row techniques_lookup tactics_lookup techniques_df ∧
    (row.tactics_id ≠ "" →
      fill_tactics_from_techniques row techniques_lookup tactics_lookup techniques_df = row) ∧
    (row.techniques_id = "" →
      fill_tactics_from_techniques row techniques_lookup tactics_lookup techniques_df = row) := by
  refine ⟨?_, fun h => fill_noop _ _ _ _ (fun hc => h hc.1),
    fun h => fill_noop _ _ _ _ (fun hc => hc.2 h)⟩
  by_cases h1 : row.tactics_id = "" ∧ row.techniques_id ≠ ""
  · rw [fill_pos row techniques_lookup tactics_lookup techniques_df h1]
    by_cases h2 :
        (match_tags (joinSep ", " (backfillNames row.techniques_id techniques_lookup techniques_df))
          tactics_lookup).1 = ""
    · exact (fill_pos
        { row with
          tactics_id :=
            (match_tags (joinSep ", " (backfillNames row.techniques_id techniques_lookup techniques_df))
              tactics_lookup).1,
          tactics_name :=
            (match_tags (joinSep ", " (backfillNames row.techniques_id techniques_lookup techniques_df))
              tactics_lookup).2 }
        techniques_lookup tactics_lookup techniques_df ⟨h2, h1.2⟩).trans rfl
    · exact fill_noop _ _ _ _ (fun hc => h2 hc.1)
  · rw [fill_noop row techniques_lookup tactics_lookup techniques_df h1]
    exact fill_noop _ _ _ _ h1

theorem claim_C8_witness :
    fill_tactics_from_techniques rowWithTactic (build_lookup []) (build_lookup []) [] =
        rowWithTactic ∧
      fill_tactics_from_techniques rowNoTech (build_lookup []) (build_lookup []) [] = rowNoTech := by
  constructor
  · exact (claim_C8_fill_idempotent rowWithTactic (build_lookup []) (build_lookup []) []).2.1
      (by decide)
  · exact (claim_C8_fill_idempotent rowNoTech (build_lookup []) (build_lookup []) []).2.2 rfl

/-- C2: a file whose open/parse raises (content = none) still yields a row
whose four path-derived cells are populated from the path while all sixteen
content cells are empty, and the surrounding loop keeps processing every
other file, one row each, in order. -/
theorem claim_C2_error_row (tactics_df techniques_df : List RefRow) (e : FileEntry)
    (h : e.content = none) :
    renderRow (processFile (build_lookup techniques_df) (build_lookup tactics_df) techniques_df e).1 =
      ["", "", (split_file_path e.dirParts).1, (split_file_path e.dirParts).2,
       "", "", "", "", "", "", "", "", "", "", "", "", "", "",
       parentStr e.dirParts, e.name] ∧
    ∀ pre post : List FileEntry,
      (runPipeline tactics_df techniques_df (pre ++ e :: post)).rows =
        (runPipeline tactics_df techniques_df pre).rows ++
          (processFile (build_lookup techniques_df) (build_lookup tactics_df) techniques_df e).1 ::
            (runPipeline tactics_df techniques_df post).rows := by
  constructor
  · simp [processFile, h, renderRow, emptyRow, renderCell, pyStr]
  · intro pre post
    simp [runPipeline_rows]

theorem claim_C2_witness :
    renderRow (processFile (build_lookup []) (build_lookup []) [] entryBad).1 =
      ["", "", "windows", "process", "", "", "", "", "", "", "", "", "", "", "", "", "", "",
       "windows/process", "bad.yml"] := by
  exact ((claim_C2_error_row [] [] entryBad rfl).1).trans (by decide)

theorem renderCell_ygetD (kvs : List (String × Yaml)) (k : String) :
    renderCell (ygetD kvs k) = copiedField kvs k := by
  unfold ygetD copiedField
  cases hy : yget kvs k with
  | none => rfl
  | some y => cases y <;> rfl

/-- C7 (amended): for a successfully parsed document, the date, modified,
title and description cells equal the document's value when present and
non-null (empty cell otherwise, never null — csv renders None as "");
the same holds for level provided the extraction ran to completion without
an error (a non-string element in a fields list raises before level is
copied, leaving it empty). -/
theorem claim_C7_copied_fields (techniques_lookup tactics_lookup : Lookup)
    (techniques_df : List RefRow) (kvs : List (String × Yaml)) (row0 : Row) :
    renderCell (extractRow techniques_lookup tactics_lookup techniques_df kvs row0).1.date =
        copiedField kvs "date" ∧
      renderCell (extractRow techniques_lookup tactics_lookup techniques_df kvs row0).1.modified =
        copiedField kvs "modified" ∧
      renderCell (extractRow techniques_lookup tactics_lookup techniques_df kvs row0).1.title =
        copiedField kvs "title" ∧
      renderCell (extractRow techniques_lookup tactics_lookup techniques_df kvs row0).1.description =
        copiedField kvs "description" ∧
      ((extractRow techniques_lookup tactics_lookup techniques_df kvs row0).2 = true →
        renderCell (extractRow techniques_lookup tactics_lookup techniques_df kvs row0).1.level =
          copiedField kvs "level") := by
  cases hf : fieldsRefsFormat (ygetD kvs "fields") with
  | none => simp [extractRow, hf, renderCell_ygetD]
  | some fstr =>
    cases hr : fieldsRefsFormat (ygetD kvs "references") with
    | none => simp [extractRow, hf, hr, renderCell_ygetD]
    | some rstr =>
      simp [extractRow, hf, hr, renderCell_ygetD, fill_keeps_date, fill_keeps_modified,
        fill_keeps_title, fill_keeps_description, fill_keeps_level, applyTagMatch_date,
        applyTagMatch_modified, applyTagMatch_title, applyTagMatch_description,
        applyTagMatch_level]

theorem claim_C7_witness :
    renderCell (extractRow (build_lookup []) (build_lookup []) [] kvsGood emptyRow).1.level =
        "high" ∧
      renderCell (extractRow (build_lookup []) (build_lookup []) [] kvsGood emptyRow).1.modified =
        "" := by
  have h := claim_C7_copied_fields (build_lookup []) (build_lookup []) [] kvsGood emptyRow
  exact ⟨(h.2.2.2.2 rfl).trans (by decide), h.2.1.trans (by decide)⟩

/-- C9 (amended): on sequences whose elements are all strings the special-case
raw join used for the fields and references columns agrees with the general
display transform; on a sequence holding a non-string element the raw join
raises instead (see the counterexample). -/
theorem claim_C9_seq_equiv (xs : List Yaml) (h : ∀ y ∈ xs, ∃ s, y = Yaml.str s) :
    fieldsRefsFormat (.list xs) = some (format_tags (.list xs)) := by
  have hm : allStrs xs = some (xs.map pyStr) := by
    induction xs with
    | nil => rfl
    | cons y ys ih =>
      obtain ⟨s, rfl⟩ := h y (by simp)
      have ihh := ih (fun z hz => h z (by simp [hz]))
      simp [allStrs, asPyStr, pyStr, ihh]
  simp [fieldsRefsFormat, pyJoinStrs, format_tags, hm]

theorem claim_C9_witness :
    fieldsRefsFormat (.list [.str "a", .str "b"]) =
      some (format_tags (.list [.str "a", .str "b"])) := by
  refine claim_C9_seq_equiv [.str "a", .str "b"] ?_
  intro y hy
  simp only [List.mem_cons, List.not_mem_nil, or_false] at hy
  rcases hy with rfl | rfl
  · exact ⟨"a", rfl⟩
  · exact ⟨"b", rfl⟩

theorem mem_removeAttackL : ∀ (l : List Char) (c : Char), c ∈ removeAttackL l → c ∈ l := by
  intro l
  induction l using removeAttackL.induct
  case case1 rest ih =>
    intro c hc
    rw [removeAttackL.eq_1] at hc
    have := ih c hc
    simp only [List.mem_cons]
    tauto
  case case2 c' rest hne ih =>
    intro c hc
    rw [removeAttackL.eq_2 c' rest hne] at hc
    rcases List.mem_cons.mp hc with rfl | hc
    · exact List.mem_cons_self _ _
    · exact List.mem_cons_of_mem _ (ih c hc)
  case case3 =>
    intro c hc
    rw [removeAttackL.eq_3] at hc
    cases hc

theorem cleanOne_no_seps (t : String) :
    ((cleanOne t).data.filter fun c => c == '-' || c == '_') = [] := by
  rw [List.filter_eq_nil_iff]
  intro c hc
  have hc' : c ∈ (spaceSeps t).data := mem_removeAttackL _ c hc
  simp only [spaceSeps, List.mem_map] at hc'
  obtain ⟨x, _, rfl⟩ := hc'
  by_cases hx : x = '-' ∨ x = '_' <;> simp [hx]

/-- C4: the tag list ["attack.t1055", "Defense-Evasion"] normalizes to
"t1055, Defense Evasion", and in general the per-tag transform leaves no '-'
or '_' character in its output (each is replaced by a space before the
"attack." occurrences are removed). -/
theorem claim_C4_clean_tags :
    clean_tags (.list [.str "attack.t1055", .str "Defense-Evasion"]) =
        "t1055, Defense Evasion" ∧
      ∀ t : String, ((cleanOne t).data.filter fun c => c == '-' || c == '_') = [] := by
  exact ⟨by decide, cleanOne_no_seps⟩
